import Mathlib

/-!
Shallow embedding of the strukture property-management API handlers.

Each HTTP handler from the source is modelled as a pure Lean function.
Database reads that the handler performs up front (`findUnique` with
`include`) are passed in as `Option` arguments holding the fetched rows;
query predicates that are part of the handler's logic (`where` filters on
status or `isPublic`) are embedded explicitly as list filters.  Writes
performed by a handler are returned in the outcome structure so that
theorems can speak about exactly what was persisted.  Timestamps
(`new Date()`) are modelled as a `now : Nat` parameter.
-/

set_option maxHeartbeats 1000000

namespace Strukture

/-- Roles of `User` (from the session / auth layer). -/
inductive Role where
  | TENANT
  | LANDLORD
  | ADMIN
deriving DecidableEq, Repr

/-- MaintenanceRequest statuses, from `src/lib/validators/maintenance.ts`. -/
inductive MaintenanceStatus where
  | SUBMITTED
  | ACKNOWLEDGED
  | IN_PROGRESS
  | ON_HOLD
  | COMPLETED
  | CANCELLED
deriving DecidableEq, Repr

/-- The string the enum value renders as in a JS template literal. -/
def MaintenanceStatus.text : MaintenanceStatus → String
  | .SUBMITTED => "SUBMITTED"
  | .ACKNOWLEDGED => "ACKNOWLEDGED"
  | .IN_PROGRESS => "IN_PROGRESS"
  | .ON_HOLD => "ON_HOLD"
  | .COMPLETED => "COMPLETED"
  | .CANCELLED => "CANCELLED"

/-- Maintenance priorities, from `src/lib/validators/maintenance.ts`. -/
inductive MaintenancePriority where
  | LOW
  | MEDIUM
  | HIGH
  | EMERGENCY
deriving DecidableEq, Repr

/-- Maintenance categories, from `src/lib/validators/maintenance.ts`. -/
inductive MaintenanceCategory where
  | PLUMBING
  | ELECTRICAL
  | HVAC
  | APPLIANCE
  | STRUCTURAL
  | PEST_CONTROL
  | LANDSCAPING
  | CLEANING
  | SECURITY
  | OTHER
deriving DecidableEq, Repr

/-- Unit statuses (data model §3). -/
inductive UnitStatus where
  | VACANT
  | OCCUPIED
  | UNDER_MAINTENANCE
  | RESERVED
deriving DecidableEq, Repr

/-- Lease statuses (data model §3). -/
inductive LeaseStatus where
  | DRAFT
  | PENDING_SIGNATURE
  | ACTIVE
  | EXPIRED
  | TERMINATED
  | RENEWED
deriving DecidableEq, Repr

/-- Payment statuses, from the payment validator. -/
inductive PaymentStatus where
  | PENDING
  | PROCESSING
  | COMPLETED
  | FAILED
  | REFUNDED
  | CANCELLED
deriving DecidableEq, Repr

/-- Session user as exposed by `getServerSession`. -/
structure Session where
  userId : String
  role : Role
deriving DecidableEq, Repr

/-- Property row (the fields the handlers read). -/
structure PropertyRec where
  id : String
  ownerId : String
deriving DecidableEq, Repr

/-- Unit row (the fields the handlers read). -/
structure UnitRec where
  id : String
  propertyId : String
  unitNumber : String
  status : UnitStatus
  monthlyRent : Nat
  depositAmount : Nat
deriving DecidableEq, Repr

/-- Lease row (the fields the handlers read). -/
structure LeaseRec where
  id : String
  tenantId : String
  unitId : String
  status : LeaseStatus
deriving DecidableEq, Repr

/-- MaintenanceRequest row. -/
structure MaintenanceRequest where
  id : String
  tenantId : String
  unitId : String
  title : String
  description : String
  category : MaintenanceCategory
  priority : MaintenancePriority
  status : MaintenanceStatus
  entryPermission : Bool
  preferredTimes : Option String
  photoUrls : List String
  acknowledgedAt : Option Nat
  completedAt : Option Nat
  assignedToId : Option String
  scheduledDate : Option Nat
  scheduledTimeSlot : Option String
  estimatedCost : Option Nat
  actualCost : Option Nat
  vendorName : Option String
  vendorPhone : Option String
  resolutionNotes : Option String
deriving DecidableEq, Repr

/-- MaintenanceUpdate row (append-only log). -/
structure MaintenanceUpdate where
  requestId : String
  previousStatus : MaintenanceStatus
  newStatus : MaintenanceStatus
  message : String
  isPublic : Bool
  photoUrls : List String
  createdBy : String
  createdAt : Nat
deriving DecidableEq, Repr

/-- API response: either a success payload with an HTTP status, or an
error string with an HTTP status.  Matches the `{success, data?, error?}`
JSON shape of every handler. -/
inductive ApiResp (α : Type) where
  | ok (status : Nat) (data : α)
  | err (status : Nat) (error : String)
deriving DecidableEq, Repr

namespace ApiResp

/-- The HTTP status of a response. -/
def httpStatus : ApiResp α → Nat
  | .ok s _ => s
  | .err s _ => s

/-- Whether the response carries data (`success: true`). -/
def isOk : ApiResp α → Bool
  | .ok _ _ => true
  | .err _ _ => false

end ApiResp

/-- What `prisma.maintenanceRequest.findUnique` with
`include: { unit: { include: { property } }, updates }` returns in the
landlord handlers: the request plus its unit, owning property, and
update log. -/
structure MaintenanceRequestDetail where
  req : MaintenanceRequest
  unit : UnitRec
  property : PropertyRec
  updates : List MaintenanceUpdate
deriving DecidableEq, Repr

/-- Parsed body of `updateMaintenanceRequestSchema` (all fields optional). -/
structure UpdateMaintenanceRequestInput where
  status : Option MaintenanceStatus
  priority : Option MaintenancePriority
  assignedToId : Option String
  scheduledDate : Option Nat
  scheduledTimeSlot : Option String
  estimatedCost : Option Nat
  actualCost : Option Nat
  vendorName : Option String
  vendorPhone : Option String
  resolutionNotes : Option String
deriving DecidableEq, Repr

/-- Parsed body of `addMaintenanceUpdateSchema`; `isPublic` and
`photoUrls` already carry their zod defaults (`true`, `[]`). -/
structure AddMaintenanceUpdateInput where
  message : String
  newStatus : Option MaintenanceStatus
  isPublic : Bool
  photoUrls : List String
deriving DecidableEq, Repr

/-- JS truthiness assignment for optional string fields:
`if (data.f) updateData.f = data.f` keeps the old value when the field is
absent or the empty string (falsy). -/
def setIfTruthy (cur upd : Option String) : Option String :=
  match upd with
  | some s => if s = "" then cur else some s
  | none => cur

/-- Outcome of the landlord PUT handler: its HTTP response, the
MaintenanceRequest row as persisted by `tx.maintenanceRequest.update`
(`none` when the handler bailed out before the transaction), and the
MaintenanceUpdate rows created by `tx.maintenanceUpdate.create`. -/
structure PutOutcome where
  resp : ApiResp MaintenanceRequest
  savedRequest : Option MaintenanceRequest
  createdUpdates : List MaintenanceUpdate
deriving DecidableEq, Repr

/-- Handler `PUT /api/landlord/maintenance/[id]` from
`src/app/api/landlord/maintenance/[id]/route.ts`.
`found` is the `findUnique` result, `parsed` the `safeParse` result
(`Except.error` carries `result.error.errors[0].message`). -/
def landlordMaintenancePUT (sess : Option Session)
    (found : Option MaintenanceRequestDetail)
    (parsed : Except String UpdateMaintenanceRequestInput)
    (now : Nat) : PutOutcome :=
  match sess with
  | none => ⟨.err 401 "Unauthorized", none, []⟩
  | some session =>
    match found with
    | none => ⟨.err 404 "Maintenance request not found", none, []⟩
    | some d =>
      if d.property.ownerId ≠ session.userId ∧ session.role ≠ Role.ADMIN then
        ⟨.err 403 "Forbidden", none, []⟩
      else
        match parsed with
        | .error msg => ⟨.err 400 msg, none, []⟩
        | .ok data =>
          let statusChanged : Bool :=
            match data.status with
            | some s => decide (s ≠ d.req.status)
            | none => false
          let updated : MaintenanceRequest :=
            { d.req with
              status := data.status.getD d.req.status
              priority := data.priority.getD d.req.priority
              assignedToId :=
                match data.assignedToId with
                | some s => if s = "" then none else some s
                | none => d.req.assignedToId
              scheduledDate :=
                match data.scheduledDate with
                | some dt => some dt
                | none => d.req.scheduledDate
              scheduledTimeSlot := setIfTruthy d.req.scheduledTimeSlot data.scheduledTimeSlot
              estimatedCost :=
                match data.estimatedCost with
                | some c => some c
                | none => d.req.estimatedCost
              actualCost :=
                match data.actualCost with
                | some c => some c
                | none => d.req.actualCost
              vendorName := setIfTruthy d.req.vendorName data.vendorName
              vendorPhone := setIfTruthy d.req.vendorPhone data.vendorPhone
              resolutionNotes := setIfTruthy d.req.resolutionNotes data.resolutionNotes
              acknowledgedAt :=
                if data.status = some MaintenanceStatus.ACKNOWLEDGED ∧
                    d.req.acknowledgedAt = none then
                  some now
                else d.req.acknowledgedAt
              completedAt :=
                if data.status = some MaintenanceStatus.COMPLETED ∧
                    d.req.completedAt = none then
                  some now
                else d.req.completedAt }
          let logRows : List MaintenanceUpdate :=
            if statusChanged then
              [{ requestId := d.req.id
                 previousStatus := d.req.status
                 newStatus := data.status.getD d.req.status
                 message := "Status changed from " ++ d.req.status.text ++
                   " to " ++ (data.status.getD d.req.status).text
                 isPublic := true
                 photoUrls := []
                 createdBy := session.userId
                 createdAt := now }]
            else []
          ⟨.ok 200 updated, some updated, logRows⟩

/-- Outcome of the landlord POST (add update/comment) handler. -/
structure AddUpdateOutcome where
  resp : ApiResp MaintenanceUpdate
  savedRequest : Option MaintenanceRequest
  createdUpdates : List MaintenanceUpdate
deriving DecidableEq, Repr

/-- Handler `POST /api/landlord/maintenance/[id]` from
`src/app/api/landlord/maintenance/[id]/route.ts`: creates a
MaintenanceUpdate row, then updates the request's status (and the
`acknowledgedAt`/`completedAt` timestamps, each only when unset) when a
differing `newStatus` was supplied. -/
def landlordMaintenancePOST (sess : Option Session)
    (found : Option MaintenanceRequestDetail)
    (parsed : Except String AddMaintenanceUpdateInput)
    (now : Nat) : AddUpdateOutcome :=
  match sess with
  | none => ⟨.err 401 "Unauthorized", none, []⟩
  | some session =>
    match found with
    | none => ⟨.err 404 "Maintenance request not found", none, []⟩
    | some d =>
      if d.property.ownerId ≠ session.userId ∧ session.role ≠ Role.ADMIN then
        ⟨.err 403 "Forbidden", none, []⟩
      else
        match parsed with
        | .error msg => ⟨.err 400 msg, none, []⟩
        | .ok data =>
          let newUpdate : MaintenanceUpdate :=
            { requestId := d.req.id
              previousStatus := d.req.status
              newStatus := data.newStatus.getD d.req.status
              message := data.message
              isPublic := data.isPublic
              photoUrls := data.photoUrls
              createdBy := session.userId
              createdAt := now }
          let savedReq : Option MaintenanceRequest :=
            match data.newStatus with
            | some s =>
              if s ≠ d.req.status then
                some { d.req with
                  status := s
                  acknowledgedAt :=
                    if s = MaintenanceStatus.ACKNOWLEDGED ∧
                        d.req.acknowledgedAt = none then
                      some now
                    else d.req.acknowledgedAt
                  completedAt :=
                    if s = MaintenanceStatus.COMPLETED ∧
                        d.req.completedAt = none then
                      some now
                    else d.req.completedAt }
              else none
            | none => none
          ⟨.ok 201 newUpdate, savedReq, [newUpdate]⟩

/-- Query clause `orderBy createdAt desc` on MaintenanceUpdate rows. -/
def sortUpdatesDesc (us : List MaintenanceUpdate) : List MaintenanceUpdate :=
  us.mergeSort (fun a b => b.createdAt ≤ a.createdAt)

/-- Handler `GET /api/landlord/maintenance/[id]`: ownership-checked read that
returns the request together with ALL its updates (no `isPublic`
filter), newest first. -/
def landlordMaintenanceGET (sess : Option Session)
    (found : Option MaintenanceRequestDetail) :
    ApiResp (MaintenanceRequest × List MaintenanceUpdate) :=
  match sess with
  | none => .err 401 "Unauthorized"
  | some session =>
    match found with
    | none => .err 404 "Maintenance request not found"
    | some d =>
      if d.property.ownerId ≠ session.userId ∧ session.role ≠ Role.ADMIN then
        .err 403 "Forbidden"
      else
        .ok 200 (d.req, sortUpdatesDesc d.updates)

/-- What the tenant single-request `findUnique` fetches: the request,
its unit, and the update log (the `isPublic` filter is applied by the
handler model, mirroring the query's `where`). -/
structure TenantMaintDetail where
  req : MaintenanceRequest
  unit : UnitRec
  updates : List MaintenanceUpdate
deriving DecidableEq, Repr

/-- Handler `GET /api/tenant/maintenance/[id]` from the tenant maintenance
route: updates are filtered to `isPublic = true` in the query itself;
the request must belong to the acting tenant. -/
def tenantMaintenanceGET (sess : Option Session)
    (found : Option TenantMaintDetail) :
    ApiResp (MaintenanceRequest × List MaintenanceUpdate) :=
  match sess with
  | none => .err 401 "Unauthorized"
  | some session =>
    match found with
    | none => .err 404 "Maintenance request not found"
    | some d =>
      let visibleUpdates := sortUpdatesDesc (d.updates.filter (·.isPublic))
      if d.req.tenantId ≠ session.userId then
        .err 403 "Forbidden"
      else
        .ok 200 (d.req, visibleUpdates)

/-- Handler `GET /api/tenant/maintenance` (list view): requests are scoped to
`tenantId = session.user.id` (plus an optional status filter), each with
its public updates, newest first, capped at 3.  `db` is the
MaintenanceRequest table with each request's update log. -/
def tenantMaintenanceListGET (sess : Option Session)
    (db : List (MaintenanceRequest × List MaintenanceUpdate))
    (statusFilter : Option MaintenanceStatus) :
    ApiResp (List (MaintenanceRequest × List MaintenanceUpdate)) :=
  match sess with
  | none => .err 401 "Unauthorized"
  | some session =>
    let rows := db.filter (fun r =>
      r.1.tenantId = session.userId &&
        match statusFilter with
        | some s => r.1.status = s
        | none => true)
    .ok 200 (rows.map (fun r =>
      (r.1, (sortUpdatesDesc (r.2.filter (·.isPublic))).take 3)))

/-- Result of the `verifyOwnership` helper in the unit route: either an
error (404 property missing / 403 not owner) or the property row. -/
def verifyOwnership (property : Option PropertyRec) (userId : String)
    (role : Role) : Except (Nat × String) PropertyRec :=
  match property with
  | none => .error (404, "Property not found")
  | some p =>
    if p.ownerId ≠ userId ∧ role ≠ Role.ADMIN then
      .error (403, "Forbidden")
    else
      .ok p

/-- Lease statuses that block deletion: the `where status in
['ACTIVE', 'PENDING_SIGNATURE']` filter of both DELETE handlers. -/
def blocksDeletion (l : LeaseRec) : Bool :=
  l.status = LeaseStatus.ACTIVE || l.status = LeaseStatus.PENDING_SIGNATURE

/-- Outcome of a DELETE handler: the HTTP response and whether the row
was actually deleted. -/
structure DeleteOutcome where
  resp : ApiResp Unit
  deleted : Bool
deriving DecidableEq, Repr

/-- Handler `DELETE /api/landlord/properties/[id]/units/[unitId]` from
`src/app/api/landlord/properties/[id]/units/[unitId]/route.ts`.
`propertyLookup` is the property row for `params.id`; `unitLookup` the
unit row (with its full lease list — the handler applies the status
filter that the prisma `include` expresses). -/
def unitDELETE (sess : Option Session) (propertyId : String)
    (propertyLookup : Option PropertyRec)
    (unitLookup : Option (UnitRec × List LeaseRec)) : DeleteOutcome :=
  match sess with
  | none => ⟨.err 401 "Unauthorized", false⟩
  | some session =>
    match verifyOwnership propertyLookup session.userId session.role with
    | .error e => ⟨.err e.1 e.2, false⟩
    | .ok _ =>
      match unitLookup with
      | none => ⟨.err 404 "Unit not found", false⟩
      | some (u, leases) =>
        if u.propertyId ≠ propertyId then
          ⟨.err 400 "Unit does not belong to this property", false⟩
        else if (leases.filter blocksDeletion).length > 0 then
          ⟨.err 400
            "Cannot delete unit with active leases. Please terminate the lease first.",
            false⟩
        else
          ⟨.ok 200 (), true⟩

/-- Handler `DELETE /api/landlord/properties/[id]` (property route).
`found` is the property with its units, each carrying its full lease
list; the handler applies the `ACTIVE`/`PENDING_SIGNATURE` filter the
prisma `include` expresses and refuses deletion when any unit still has
such a lease. -/
def propertyDELETE (sess : Option Session)
    (found : Option (PropertyRec × List (UnitRec × List LeaseRec))) :
    DeleteOutcome :=
  match sess with
  | none => ⟨.err 401 "Unauthorized", false⟩
  | some session =>
    match found with
    | none => ⟨.err 404 "Property not found", false⟩
    | some (p, units) =>
      if p.ownerId ≠ session.userId ∧ session.role ≠ Role.ADMIN then
        ⟨.err 403 "Forbidden", false⟩
      else
        let hasActiveLeases := units.any (fun u =>
          (u.2.filter blocksDeletion).length > 0)
        if hasActiveLeases then
          ⟨.err 400
            "Cannot delete property with active leases. Please terminate all leases first.",
            false⟩
        else
          ⟨.ok 200 (), true⟩

/-- Parsed body of `completeOnboardingSchema` (the fields the submit
handler reads; the date strings are modelled as numeric timestamps). -/
structure CompleteOnboardingInput where
  firstName : String
  lastName : String
  phone : String
  dateOfBirth : Nat
  ssnLast4 : String
  emergencyContactName : String
  emergencyContactPhone : String
  emergencyContactRelation : String
  unitId : String
  moveInDate : Nat
  leaseTerm : Nat
  signature : String
deriving DecidableEq, Repr

/-- One write performed inside the onboarding transaction, in order. -/
inductive OnboardingWrite where
  | updateUserProfile (userId : String)
  | createLease (lease : LeaseRec)
  | setUnitStatus (unitId : String) (status : UnitStatus)
  | createAuditLog (userId : String) (action : String) (leaseId : String)
deriving DecidableEq, Repr

/-- Outcome of `POST /api/onboarding/submit`: the HTTP response and the
ordered list of writes the transaction performed. -/
structure OnboardingOutcome where
  resp : ApiResp String
  writes : List OnboardingWrite
deriving DecidableEq, Repr

/-- Handler `POST /api/onboarding/submit` from
`src/app/api/onboarding/submit/route.ts`.  `unitLookup` is the
`findUnique` on `data.unitId`; `newLeaseId` models the id the database
generates for the created lease.  The transaction updates the user
profile, creates the `PENDING_SIGNATURE` lease, flips the unit to
`RESERVED` and writes one audit-log row; a non-`VACANT` unit is rejected
with 409 before any write. -/
def onboardingSubmitPOST (sess : Option Session)
    (parsed : Except String CompleteOnboardingInput)
    (unitLookup : Option UnitRec) (newLeaseId : String) :
    OnboardingOutcome :=
  match sess with
  | none => ⟨.err 401 "Unauthorized", []⟩
  | some session =>
    match parsed with
    | .error msg => ⟨.err 400 msg, []⟩
    | .ok data =>
      match unitLookup with
      | none => ⟨.err 404 "Unit not found", []⟩
      | some unit =>
        if unit.status ≠ UnitStatus.VACANT then
          ⟨.err 409 "This unit is no longer available", []⟩
        else
          let newLease : LeaseRec :=
            { id := newLeaseId
              tenantId := session.userId
              unitId := data.unitId
              status := LeaseStatus.PENDING_SIGNATURE }
          ⟨.ok 201 newLeaseId,
            [OnboardingWrite.updateUserProfile session.userId,
             OnboardingWrite.createLease newLease,
             OnboardingWrite.setUnitStatus data.unitId UnitStatus.RESERVED,
             OnboardingWrite.createAuditLog session.userId
               "TENANT_ONBOARDING_COMPLETED" newLeaseId]⟩

/-- One zod validation issue: the offending field's path and the
message the schema attaches to it. -/
structure ZodIssue where
  path : String
  message : String
deriving DecidableEq, Repr

/-- Raw (pre-validation) body of a tenant maintenance-request creation.
`none` on a required field stands for a missing key; enum fields are
already matched (`none` = absent). -/
structure CreateMaintenanceRequestRaw where
  title : Option String
  description : Option String
  category : Option MaintenanceCategory
  priority : Option MaintenancePriority
  entryPermission : Option Bool
  preferredTimes : Option String
  photoUrls : Option (List String)
deriving DecidableEq, Repr

/-- Parsed body of `createMaintenanceRequestSchema`, with zod defaults
(`priority := MEDIUM`, `entryPermission := false`, `photoUrls := []`)
applied. -/
structure CreateMaintenanceRequestInput where
  title : String
  description : String
  category : MaintenanceCategory
  priority : MaintenancePriority
  entryPermission : Bool
  preferredTimes : Option String
  photoUrls : List String
deriving DecidableEq, Repr

/-- Issues of `title: z.string().min(1, 'Title is required').max(200)`. -/
def titleIssues (t : Option String) : List ZodIssue :=
  match t with
  | none => [⟨"title", "Required"⟩]
  | some s =>
    (if s.length < 1 then [⟨"title", "Title is required"⟩] else []) ++
      (if s.length > 200 then
        [⟨"title", "String must contain at most 200 character(s)"⟩]
      else [])

/-- Issues of `description: z.string().min(10, 'Please provide a
detailed description').max(2000)`. -/
def descriptionIssues (t : Option String) : List ZodIssue :=
  match t with
  | none => [⟨"description", "Required"⟩]
  | some s =>
    (if s.length < 10 then
      [⟨"description", "Please provide a detailed description"⟩]
    else []) ++
      (if s.length > 2000 then
        [⟨"description", "String must contain at most 2000 character(s)"⟩]
      else [])

/-- Issues of the `category` enum (custom errorMap message). -/
def categoryIssues (c : Option MaintenanceCategory) : List ZodIssue :=
  match c with
  | none => [⟨"category", "Please select a category"⟩]
  | some _ => []

/-- Issues of `preferredTimes: z.string().max(500).optional()`. -/
def preferredTimesIssues (t : Option String) : List ZodIssue :=
  match t with
  | none => []
  | some s =>
    if s.length > 500 then
      [⟨"preferredTimes", "String must contain at most 500 character(s)"⟩]
    else []

/-- Parse function `createMaintenanceRequestSchema.safeParse`: issues are collected in
the schema's key order (title, description, category, priority,
entryPermission, preferredTimes, photoUrls); success applies the
defaults.  URL validity of `photoUrls` entries is modelled as always
holding (no claim depends on it). -/
def createMaintenanceRequestParse (raw : CreateMaintenanceRequestRaw) :
    Except (List ZodIssue) CreateMaintenanceRequestInput :=
  let issues := titleIssues raw.title ++ descriptionIssues raw.description ++
    categoryIssues raw.category ++ preferredTimesIssues raw.preferredTimes
  match raw.title, raw.description, raw.category with
  | some t, some dsc, some c =>
    if issues.isEmpty then
      .ok { title := t
            description := dsc
            category := c
            priority := raw.priority.getD MaintenancePriority.MEDIUM
            entryPermission := raw.entryPermission.getD false
            preferredTimes := raw.preferredTimes
            photoUrls := raw.photoUrls.getD [] }
    else .error issues
  | _, _, _ => .error issues

/-- Outcome of the tenant maintenance POST: the HTTP response and the
MaintenanceRequest row created (if any). -/
structure CreateRequestOutcome where
  resp : ApiResp MaintenanceRequest
  created : Option MaintenanceRequest
deriving DecidableEq, Repr

/-- The `prisma.lease.findFirst({where: {tenantId, status: 'ACTIVE'}})`
query of the tenant maintenance POST. -/
def findActiveLease (leases : List LeaseRec) (tenantId : String) :
    Option LeaseRec :=
  leases.find? (fun l => l.tenantId = tenantId && l.status = LeaseStatus.ACTIVE)

/-- Handler `POST /api/tenant/maintenance`: validates the body (400 with the
first zod issue's message on failure), requires an ACTIVE lease for the
tenant (400 otherwise), then creates the request against that lease's
unit with initial status `SUBMITTED`.  `leases` is the lease table;
`newId` models the generated row id. -/
def tenantMaintenancePOST (sess : Option Session)
    (raw : CreateMaintenanceRequestRaw) (leases : List LeaseRec)
    (newId : String) : CreateRequestOutcome :=
  match sess with
  | none => ⟨.err 401 "Unauthorized", none⟩
  | some session =>
    match createMaintenanceRequestParse raw with
    | .error issues =>
      match issues with
      | [] => ⟨.err 400 "", none⟩
      | i :: _ => ⟨.err 400 i.message, none⟩
    | .ok data =>
      match findActiveLease leases session.userId with
      | none => ⟨.err 400 "No active lease found", none⟩
      | some activeLease =>
        let createdReq : MaintenanceRequest :=
          { id := newId
            tenantId := session.userId
            unitId := activeLease.unitId
            title := data.title
            description := data.description
            category := data.category
            priority := data.priority
            status := MaintenanceStatus.SUBMITTED
            entryPermission := data.entryPermission
            preferredTimes := data.preferredTimes
            photoUrls := data.photoUrls
            acknowledgedAt := none
            completedAt := none
            assignedToId := none
            scheduledDate := none
            scheduledTimeSlot := none
            estimatedCost := none
            actualCost := none
            vendorName := none
            vendorPhone := none
            resolutionNotes := none }
        ⟨.ok 201 createdReq, some createdReq⟩

/-- Payment types from the payment validator (`paymentTypes`). -/
inductive PaymentType where
  | RENT
  | DEPOSIT
  | LATE_FEE
  | UTILITY
  | MAINTENANCE
  | OTHER
deriving DecidableEq, Repr

/-- Payment methods from the payment validator (`paymentMethods`). -/
inductive PaymentMethod where
  | ACH
  | DEBIT_CARD
  | CREDIT_CARD
  | CASHIER_CHECK
  | CASH
  | OTHER
deriving DecidableEq, Repr

/-- User row (the fields the payments handler reads). -/
structure UserRec where
  id : String
  email : String
  firstName : String
  lastName : String
  stripeCustomerId : Option String
deriving DecidableEq, Repr

/-- Payment row as created by the tenant payments handler.  Monetary
amounts are modelled in cents as naturals. -/
structure PaymentRec where
  userId : String
  leaseId : String
  type : PaymentType
  method : PaymentMethod
  status : PaymentStatus
  amount : Nat
  totalAmount : Nat
  dueDate : Nat
  periodStart : Option Nat
  periodEnd : Option Nat
  notes : Option String
  stripePaymentIntentId : String
deriving DecidableEq, Repr

/-- Parsed body of `createPaymentSchema`. -/
structure CreatePaymentInput where
  leaseId : String
  type : PaymentType
  method : PaymentMethod
  amount : Nat
  periodStart : Option Nat
  periodEnd : Option Nat
  notes : Option String
deriving DecidableEq, Repr

/-- The payment-intent object the external gateway returns. -/
structure PaymentIntent where
  id : String
  client_secret : String
deriving DecidableEq, Repr

/-- Outcome of the tenant payments POST: the HTTP response (payment row
plus the gateway's client secret), the Payment row created (if any),
and whether the user's gateway-customer id was saved. -/
structure CreatePaymentOutcome where
  resp : ApiResp (PaymentRec × String)
  createdPayment : Option PaymentRec
  stripeCustomerIdSaved : Bool
deriving DecidableEq, Repr

/-- Handler `POST /api/tenant/payments`: validates, checks the lease belongs to
the acting tenant, obtains a gateway customer and payment intent
(modelled as the `stripeCustomerId`/`intent` arguments, since the
gateway is an external collaborator), then creates a Payment row with
status `PENDING` carrying the intent id, and returns the intent's
client secret.  `now` models `new Date()` for `dueDate`. -/
def tenantPaymentsPOST (sess : Option Session)
    (parsed : Except String CreatePaymentInput)
    (leaseLookup : Option LeaseRec) (userLookup : Option UserRec)
    (intent : PaymentIntent) (now : Nat) : CreatePaymentOutcome :=
  match sess with
  | none => ⟨.err 401 "Unauthorized", none, false⟩
  | some session =>
    match parsed with
    | .error msg => ⟨.err 400 msg, none, false⟩
    | .ok data =>
      match leaseLookup with
      | none => ⟨.err 404 "Lease not found", none, false⟩
      | some lease =>
        if lease.tenantId ≠ session.userId then
          ⟨.err 403 "Forbidden", none, false⟩
        else
          match userLookup with
          | none => ⟨.err 404 "User not found", none, false⟩
          | some user =>
            let payment : PaymentRec :=
              { userId := session.userId
                leaseId := data.leaseId
                type := data.type
                method := data.method
                status := PaymentStatus.PENDING
                amount := data.amount
                totalAmount := data.amount
                dueDate := now
                periodStart := data.periodStart
                periodEnd := data.periodEnd
                notes := data.notes
                stripePaymentIntentId := intent.id }
            ⟨.ok 201 (payment, intent.client_secret), some payment,
              user.stripeCustomerId.isNone⟩

/-! ### Concrete fixtures used by witnesses and counterexamples -/

/-- A landlord session owning `prop0`. -/
def sess0 : Session := ⟨"landlord-1", Role.LANDLORD⟩

/-- A property owned by `sess0`. -/
def prop0 : PropertyRec := ⟨"prop-1", "landlord-1"⟩

/-- A unit of `prop0`. -/
def unit0 : UnitRec :=
  ⟨"unit-1", "prop-1", "1A", UnitStatus.OCCUPIED, 1500, 1500⟩

/-- A maintenance request of tenant `tenant-1` on `unit0`, still
`SUBMITTED`, with no timestamps set. -/
def req0 : MaintenanceRequest :=
  { id := "mr-1"
    tenantId := "tenant-1"
    unitId := "unit-1"
    title := "Leaking sink"
    description := "The kitchen sink is leaking"
    category := MaintenanceCategory.PLUMBING
    priority := MaintenancePriority.MEDIUM
    status := MaintenanceStatus.SUBMITTED
    entryPermission := false
    preferredTimes := none
    photoUrls := []
    acknowledgedAt := none
    completedAt := none
    assignedToId := none
    scheduledDate := none
    scheduledTimeSlot := none
    estimatedCost := none
    actualCost := none
    vendorName := none
    vendorPhone := none
    resolutionNotes := none }

/-- The landlord `findUnique` view of `req0`. -/
def detail0 : MaintenanceRequestDetail := ⟨req0, unit0, prop0, []⟩

/-- An add-update body carrying only a comment: no status change. -/
def addInput0 : AddMaintenanceUpdateInput :=
  ⟨"Plumber has been contacted", none, true, []⟩

/-! ### C10 -/

/-- C10: every MaintenanceUpdate row auto-generated by the landlord PUT
status-change path has `isPublic = true` and message
`Status changed from <previous> to <new>`. -/
theorem c10_put_log_rows_public (sess : Option Session)
    (found : Option MaintenanceRequestDetail)
    (parsed : Except String UpdateMaintenanceRequestInput) (now : Nat) :
    ∀ u ∈ (landlordMaintenancePUT sess found parsed now).createdUpdates,
      u.isPublic = true ∧
        u.message = "Status changed from " ++ u.previousStatus.text ++
          " to " ++ u.newStatus.text := by
  intro u hu
  unfold landlordMaintenancePUT at hu
  rcases sess with _ | s
  · simp at hu
  rcases found with _ | d
  · simp at hu
  by_cases hOwn : d.property.ownerId ≠ s.userId ∧ s.role ≠ Role.ADMIN
  · simp [hOwn] at hu
  rcases parsed with msg | data
  · simp [hOwn] at hu
  · simp only [hOwn, if_false] at hu
    rcases hst : data.status with _ | st <;> simp [hst] at hu
    by_cases hne : st = d.req.status
    · simp [hne] at hu
    · simp [hne] at hu
      subst hu
      exact ⟨rfl, rfl⟩

/-- A PUT body that only moves the status to `ACKNOWLEDGED`. -/
def updInput0 : UpdateMaintenanceRequestInput :=
  ⟨some MaintenanceStatus.ACKNOWLEDGED, none, none, none, none, none, none,
    none, none, none⟩

/-- The log row produced by acknowledging `req0` at time 5. -/
def logRow0 : MaintenanceUpdate :=
  ⟨"mr-1", MaintenanceStatus.SUBMITTED, MaintenanceStatus.ACKNOWLEDGED,
    "Status changed from SUBMITTED to ACKNOWLEDGED", true, [],
    "landlord-1", 5⟩

/-- C10 witness: a concrete status change (`SUBMITTED → ACKNOWLEDGED`)
produces exactly the public row `logRow0` with the generated message. -/
theorem c10_put_log_rows_public_witness :
    logRow0 ∈ (landlordMaintenancePUT (some sess0) (some detail0)
        (.ok updInput0) 5).createdUpdates ∧
      logRow0.isPublic = true ∧
        logRow0.message = "Status changed from " ++ logRow0.previousStatus.text ++
          " to " ++ logRow0.newStatus.text := by
  have hm : logRow0 ∈ (landlordMaintenancePUT (some sess0) (some detail0)
      (.ok updInput0) 5).createdUpdates := by
    decide
  exact ⟨hm, c10_put_log_rows_public (some sess0) (some detail0)
    (.ok updInput0) 5 logRow0 hm⟩

/-! ### C1 -/

/-- C1 counterexample: the landlord POST (add-update) handler creates a
MaintenanceUpdate row even when no status change is requested
(`newStatus` omitted), refuting "a MaintenanceUpdate row ... is created
if and only if the new status differs from the request's current
status" for that handler. -/
theorem c1_counterexample :
    addInput0.newStatus = none ∧
      (landlordMaintenancePOST (some sess0) (some detail0)
          (.ok addInput0) 3).createdUpdates ≠ [] := by
  exact ⟨rfl, by decide⟩

/-- C1 (amended): in the PUT status-update handler a MaintenanceUpdate
row is created iff the supplied status differs from the request's
current status; the POST add-update handler always creates exactly one
MaintenanceUpdate row (recording `previousStatus` and `newStatus`), and
it modifies the request's status iff the supplied `newStatus` differs
from the current status. -/
theorem c1_update_row_iff_status_change (s : Session)
    (d : MaintenanceRequestDetail) (updIn : UpdateMaintenanceRequestInput)
    (addIn : AddMaintenanceUpdateInput) (now : Nat)
    (hOwn : d.property.ownerId = s.userId) :
    ((landlordMaintenancePUT (some s) (some d) (.ok updIn) now).createdUpdates
        ≠ [] ↔ ∃ st, updIn.status = some st ∧ st ≠ d.req.status) ∧
    (landlordMaintenancePOST (some s) (some d) (.ok addIn) now).createdUpdates.length
        = 1 ∧
    ((landlordMaintenancePOST (some s) (some d) (.ok addIn) now).savedRequest.isSome
        ↔ ∃ st, addIn.newStatus = some st ∧ st ≠ d.req.status) := by
  have hOwnNeg : ¬(d.property.ownerId ≠ s.userId ∧ s.role ≠ Role.ADMIN) := by
    intro h
    exact h.1 hOwn
  refine ⟨?_, ?_, ?_⟩
  · unfold landlordMaintenancePUT
    simp only [hOwnNeg, if_false]
    rcases hst : updIn.status with _ | st
    · simp
    · by_cases hne : st = d.req.status
      · simp [hne]
      · simp [hne]
  · unfold landlordMaintenancePOST
    simp [hOwnNeg]
  · unfold landlordMaintenancePOST
    simp only [hOwnNeg, if_false]
    rcases hst : addIn.newStatus with _ | st
    · simp
    · by_cases hne : st = d.req.status
      · simp [hne]
      · simp [hne]

/-- C1 witness: the amended statement evaluated on `sess0`/`detail0`:
the status-changing PUT body creates a log row, the comment-only POST
body creates exactly one row yet leaves the request row unwritten. -/
theorem c1_update_row_iff_status_change_witness :
    (landlordMaintenancePUT (some sess0) (some detail0) (.ok updInput0)
        5).createdUpdates ≠ [] ∧
    (landlordMaintenancePOST (some sess0) (some detail0) (.ok addInput0)
        5).createdUpdates.length = 1 ∧
    ¬(landlordMaintenancePOST (some sess0) (some detail0) (.ok addInput0)
        5).savedRequest.isSome := by
  have h := c1_update_row_iff_status_change sess0 detail0 updInput0
    addInput0 5 rfl
  refine ⟨h.1.mpr ⟨MaintenanceStatus.ACKNOWLEDGED, rfl, by decide⟩, h.2.1, ?_⟩
  intro hs
  obtain ⟨st, hst, -⟩ := h.2.2.mp hs
  simp [addInput0] at hst

/-! ### C2 -/

/-- C2: `acknowledgedAt` and `completedAt` are each set at most once.
In both the PUT status-update handler and the POST add-update handler,
an already-set timestamp is never overwritten (so re-entering the
triggering status any number of times leaves it untouched), and a
timestamp is newly set exactly when the triggering status is supplied
while the timestamp is still unset. -/
theorem c2_timestamps_set_at_most_once (s : Session)
    (d : MaintenanceRequestDetail) (updIn : UpdateMaintenanceRequestInput)
    (addIn : AddMaintenanceUpdateInput) (now : Nat)
    (hOwn : d.property.ownerId = s.userId) :
    (∀ r, (landlordMaintenancePUT (some s) (some d) (.ok updIn) now).savedRequest
          = some r →
        (∀ t, d.req.acknowledgedAt = some t → r.acknowledgedAt = some t) ∧
        (∀ t, d.req.completedAt = some t → r.completedAt = some t) ∧
        (updIn.status = some MaintenanceStatus.ACKNOWLEDGED →
          d.req.acknowledgedAt = none → r.acknowledgedAt = some now) ∧
        (updIn.status = some MaintenanceStatus.COMPLETED →
          d.req.completedAt = none → r.completedAt = some now)) ∧
    (∀ r, (landlordMaintenancePOST (some s) (some d) (.ok addIn) now).savedRequest
          = some r →
        (∀ t, d.req.acknowledgedAt = some t → r.acknowledgedAt = some t) ∧
        (∀ t, d.req.completedAt = some t → r.completedAt = some t) ∧
        (addIn.newStatus = some MaintenanceStatus.ACKNOWLEDGED →
          d.req.acknowledgedAt = none → r.acknowledgedAt = some now) ∧
        (addIn.newStatus = some MaintenanceStatus.COMPLETED →
          d.req.completedAt = none → r.completedAt = some now)) := by
  have hOwnNeg : ¬(d.property.ownerId ≠ s.userId ∧ s.role ≠ Role.ADMIN) := by
    intro h
    exact h.1 hOwn
  constructor
  · intro r hr
    unfold landlordMaintenancePUT at hr
    simp only [hOwnNeg, if_false, Option.some.injEq] at hr
    subst hr
    refine ⟨?_, ?_, ?_, ?_⟩
    · intro t ht
      simp [ht]
    · intro t ht
      simp [ht]
    · intro hst ht
      simp [hst, ht]
    · intro hst ht
      simp [hst, ht]
  · intro r hr
    unfold landlordMaintenancePOST at hr
    simp only [hOwnNeg, if_false] at hr
    rcases hst : addIn.newStatus with _ | st
    · simp [hst] at hr
    · simp only [hst] at hr
      by_cases hne : st = d.req.status
      · simp [hne] at hr
      · simp only [hne, ne_eq, not_false_iff, if_true, Option.some.injEq] at hr
        subst hr
        refine ⟨?_, ?_, ?_, ?_⟩
        · intro t ht
          simp [ht]
        · intro t ht
          simp [ht]
        · intro hst2 ht
          simp only [hst, Option.some.injEq] at hst2
          subst hst2
          simp [ht]
        · intro hst2 ht
          simp only [hst, Option.some.injEq] at hst2
          subst hst2
          simp [ht]

/-- Variant of `req0` with both timestamps already set (ack 1, completed 2). -/
def reqStamped0 : MaintenanceRequest :=
  { req0 with acknowledgedAt := some 1, completedAt := some 2 }

/-- The landlord view of `reqStamped0`. -/
def detailStamped0 : MaintenanceRequestDetail :=
  ⟨reqStamped0, unit0, prop0, []⟩

/-- The request row the PUT handler persists when `ACKNOWLEDGED` is
re-entered on `reqStamped0`: the status moves but neither timestamp is
overwritten. -/
def savedStamped0 : MaintenanceRequest :=
  { reqStamped0 with status := MaintenanceStatus.ACKNOWLEDGED }

/-- C2 witness: re-acknowledging `reqStamped0` (timestamps already set
at 1 and 2) at time 5 persists `savedStamped0`, whose timestamps are
still 1 and 2. -/
theorem c2_timestamps_set_at_most_once_witness :
    (landlordMaintenancePUT (some sess0) (some detailStamped0)
        (.ok updInput0) 5).savedRequest = some savedStamped0 ∧
    savedStamped0.acknowledgedAt = some 1 ∧
    savedStamped0.completedAt = some 2 := by
  have hsave : (landlordMaintenancePUT (some sess0) (some detailStamped0)
      (.ok updInput0) 5).savedRequest = some savedStamped0 := by
    decide
  have h := (c2_timestamps_set_at_most_once sess0 detailStamped0 updInput0
    addInput0 5 rfl).1 savedStamped0 hsave
  exact ⟨hsave, h.1 1 rfl, h.2.1 2 rfl⟩

/-! ### C3 -/

/-- C3: a landlord read/update of a MaintenanceRequest by a user who is
not the owner of the request's unit's property and not `ADMIN` yields
`403 Forbidden` with no data and no writes (404 when the request does
not exist); a tenant read of a request whose `tenantId` is not their
own likewise yields 403/404 and never the data. -/
theorem c3_ownership_scoping (s : Session) (d : MaintenanceRequestDetail)
    (td : TenantMaintDetail)
    (updIn : Except String UpdateMaintenanceRequestInput)
    (addIn : Except String AddMaintenanceUpdateInput) (now : Nat) :
    (landlordMaintenanceGET (some s) none =
        .err 404 "Maintenance request not found") ∧
    (landlordMaintenancePUT (some s) none updIn now =
        ⟨.err 404 "Maintenance request not found", none, []⟩) ∧
    (landlordMaintenancePOST (some s) none addIn now =
        ⟨.err 404 "Maintenance request not found", none, []⟩) ∧
    (tenantMaintenanceGET (some s) none =
        .err 404 "Maintenance request not found") ∧
    (d.property.ownerId ≠ s.userId → s.role ≠ Role.ADMIN →
      landlordMaintenanceGET (some s) (some d) = .err 403 "Forbidden" ∧
      landlordMaintenancePUT (some s) (some d) updIn now =
        ⟨.err 403 "Forbidden", none, []⟩ ∧
      landlordMaintenancePOST (some s) (some d) addIn now =
        ⟨.err 403 "Forbidden", none, []⟩) ∧
    (td.req.tenantId ≠ s.userId →
      tenantMaintenanceGET (some s) (some td) = .err 403 "Forbidden") := by
  refine ⟨rfl, rfl, rfl, rfl, ?_, ?_⟩
  · intro hOwn hRole
    refine ⟨?_, ?_, ?_⟩
    · unfold landlordMaintenanceGET
      simp [hOwn, hRole]
    · unfold landlordMaintenancePUT
      simp [hOwn, hRole]
    · unfold landlordMaintenancePOST
      simp [hOwn, hRole]
  · intro hTen
    unfold tenantMaintenanceGET
    simp [hTen]

/-- C3 witness: a foreign landlord session (`landlord-2`, not `ADMIN`)
is refused `detail0`, and a foreign tenant session is refused the
tenant view of `req0`. -/
theorem c3_ownership_scoping_witness :
    landlordMaintenanceGET (some ⟨"landlord-2", Role.LANDLORD⟩)
        (some detail0) = .err 403 "Forbidden" ∧
    landlordMaintenancePUT (some ⟨"landlord-2", Role.LANDLORD⟩)
        (some detail0) (.ok updInput0) 5 = ⟨.err 403 "Forbidden", none, []⟩ ∧
    landlordMaintenancePOST (some ⟨"landlord-2", Role.LANDLORD⟩)
        (some detail0) (.ok addInput0) 5 = ⟨.err 403 "Forbidden", none, []⟩ ∧
    tenantMaintenanceGET (some ⟨"landlord-2", Role.LANDLORD⟩)
        (some ⟨req0, unit0, []⟩) = .err 403 "Forbidden" := by
  have h := c3_ownership_scoping ⟨"landlord-2", Role.LANDLORD⟩ detail0
    ⟨req0, unit0, []⟩ (.ok updInput0) (.ok addInput0) 5
  have hOwn : prop0.ownerId ≠ "landlord-2" := by decide
  have hRole : Role.LANDLORD ≠ Role.ADMIN := by decide
  have hTen : req0.tenantId ≠ "landlord-2" := by decide
  obtain ⟨hA, hB, hC⟩ := h.2.2.2.2.1 hOwn hRole
  exact ⟨hA, hB, hC, h.2.2.2.2.2 hTen⟩

/-! ### C4 -/

/-- Every row surviving the public filter-sort pipeline is public. -/
theorem mem_sorted_public_filter (us : List MaintenanceUpdate)
    (u : MaintenanceUpdate)
    (hu : u ∈ sortUpdatesDesc (us.filter (·.isPublic))) :
    u.isPublic = true :=
  (List.mem_filter.mp (List.mem_mergeSort.mp hu)).2

/-- C4: tenant-facing maintenance reads (single-request view and list
view) never return a MaintenanceUpdate row with `isPublic = false`,
while the landlord single-request read returns the request's full
update log (same rows, newest first). -/
theorem c4_update_visibility (sess : Option Session)
    (td : Option TenantMaintDetail)
    (db : List (MaintenanceRequest × List MaintenanceUpdate))
    (sf : Option MaintenanceStatus) (s : Session)
    (ld : MaintenanceRequestDetail)
    (hOwn : ld.property.ownerId = s.userId) :
    (∀ st r us, tenantMaintenanceGET sess td = .ok st (r, us) →
      ∀ u ∈ us, u.isPublic = true) ∧
    (∀ st rows, tenantMaintenanceListGET sess db sf = .ok st rows →
      ∀ rw ∈ rows, ∀ u ∈ rw.2, u.isPublic = true) ∧
    (landlordMaintenanceGET (some s) (some ld) =
        .ok 200 (ld.req, sortUpdatesDesc ld.updates) ∧
      ∀ u, u ∈ sortUpdatesDesc ld.updates ↔ u ∈ ld.updates) := by
  refine ⟨?_, ?_, ?_, ?_⟩
  · intro st r us hresp u hu
    unfold tenantMaintenanceGET at hresp
    rcases sess with _ | s'
    · simp at hresp
    rcases td with _ | d
    · simp at hresp
    by_cases hTen : d.req.tenantId ≠ s'.userId
    · simp [hTen] at hresp
    · simp only [hTen, if_false, if_true, ApiResp.ok.injEq, Prod.mk.injEq] at hresp
      obtain ⟨-, -, hus⟩ := hresp
      subst hus
      exact mem_sorted_public_filter d.updates u hu
  · intro st rows hresp rw hrw u hu
    unfold tenantMaintenanceListGET at hresp
    rcases sess with _ | s'
    · simp at hresp
    simp only [ApiResp.ok.injEq] at hresp
    obtain ⟨-, hrows⟩ := hresp
    subst hrows
    obtain ⟨r', hr', hmap⟩ := List.mem_map.mp hrw
    have : u ∈ sortUpdatesDesc (r'.2.filter (·.isPublic)) := by
      have := hmap ▸ hu
      exact List.mem_of_mem_take this
    exact mem_sorted_public_filter r'.2 u this
  · unfold landlordMaintenanceGET
    have hOwnNeg : ¬(ld.property.ownerId ≠ s.userId ∧ s.role ≠ Role.ADMIN) := by
      intro h
      exact h.1 hOwn
    simp [hOwnNeg]
  · intro u
    exact List.mem_mergeSort

/-- An internal (non-public) update row on `req0`. -/
def internalUpdate0 : MaintenanceUpdate :=
  ⟨"mr-1", MaintenanceStatus.SUBMITTED, MaintenanceStatus.SUBMITTED,
    "internal note: tenant often absent", false, [], "landlord-1", 2⟩

/-- A public update row on `req0`. -/
def publicUpdate0 : MaintenanceUpdate :=
  ⟨"mr-1", MaintenanceStatus.SUBMITTED, MaintenanceStatus.ACKNOWLEDGED,
    "Status changed from SUBMITTED to ACKNOWLEDGED", true, [], "landlord-1", 3⟩

/-- C4 witness: with one internal and one public row stored, the tenant
view of `req0` returns only `publicUpdate0` — which the claim forces to
be public — while the landlord view still contains `internalUpdate0`. -/
theorem c4_update_visibility_witness :
    tenantMaintenanceGET (some ⟨"tenant-1", Role.TENANT⟩)
        (some ⟨req0, unit0, [internalUpdate0, publicUpdate0]⟩) =
      .ok 200 (req0, [publicUpdate0]) ∧
    publicUpdate0.isPublic = true ∧
    landlordMaintenanceGET (some sess0)
        (some ⟨req0, unit0, prop0, [internalUpdate0, publicUpdate0]⟩) =
      .ok 200 (req0, sortUpdatesDesc [internalUpdate0, publicUpdate0]) ∧
    (internalUpdate0 ∈ sortUpdatesDesc [internalUpdate0, publicUpdate0] ↔
      internalUpdate0 ∈ [internalUpdate0, publicUpdate0]) := by
  have h := c4_update_visibility (some ⟨"tenant-1", Role.TENANT⟩)
    (some ⟨req0, unit0, [internalUpdate0, publicUpdate0]⟩)
    [(req0, [internalUpdate0, publicUpdate0])] none sess0
    ⟨req0, unit0, prop0, [internalUpdate0, publicUpdate0]⟩ rfl
  have hfilter : List.filter (fun x => x.isPublic)
      [internalUpdate0, publicUpdate0] = [publicUpdate0] := rfl
  have hten : ¬(req0.tenantId ≠ "tenant-1") := by decide
  have hresp : tenantMaintenanceGET (some ⟨"tenant-1", Role.TENANT⟩)
      (some ⟨req0, unit0, [internalUpdate0, publicUpdate0]⟩) =
      .ok 200 (req0, [publicUpdate0]) := by
    unfold tenantMaintenanceGET sortUpdatesDesc
    simp only [hfilter, hten, if_false, List.mergeSort_singleton]
  exact ⟨hresp, h.1 200 req0 [publicUpdate0] hresp publicUpdate0 (by decide),
    h.2.2.1, h.2.2.2 internalUpdate0⟩

/-! ### C5 -/

/-- C5: deleting a Unit that has any Lease in `ACTIVE` or
`PENDING_SIGNATURE` status, or deleting a Property any of whose units
has such a Lease, is rejected with a 400 error and nothing is deleted.
(The hypotheses put the handler past its 401/404/403 pre-checks, which
is where the claim applies.) -/
theorem c5_delete_blocked_by_active_lease (s : Session) (pid : String)
    (p : PropertyRec) (u : UnitRec) (leases : List LeaseRec)
    (units : List (UnitRec × List LeaseRec))
    (hOwn : p.ownerId = s.userId) (hBelong : u.propertyId = pid) :
    ((∃ l ∈ leases, blocksDeletion l = true) →
      unitDELETE (some s) pid (some p) (some (u, leases)) =
        ⟨.err 400
          "Cannot delete unit with active leases. Please terminate the lease first.",
          false⟩) ∧
    ((∃ ul ∈ units, ∃ l ∈ ul.2, blocksDeletion l = true) →
      propertyDELETE (some s) (some (p, units)) =
        ⟨.err 400
          "Cannot delete property with active leases. Please terminate all leases first.",
          false⟩) := by
  have hOwnNeg : ¬(p.ownerId ≠ s.userId ∧ s.role ≠ Role.ADMIN) := by
    intro h
    exact h.1 hOwn
  constructor
  · rintro ⟨l, hl, hbl⟩
    have hmem : l ∈ leases.filter blocksDeletion :=
      List.mem_filter.mpr ⟨hl, hbl⟩
    have hlen : 0 < (leases.filter blocksDeletion).length :=
      List.length_pos.mpr (List.ne_nil_of_mem hmem)
    unfold unitDELETE verifyOwnership
    simp [hOwnNeg, hBelong, hlen]
  · rintro ⟨ul, hul, l, hl, hbl⟩
    have hmem : l ∈ ul.2.filter blocksDeletion :=
      List.mem_filter.mpr ⟨hl, hbl⟩
    have hlen : 0 < (ul.2.filter blocksDeletion).length :=
      List.length_pos.mpr (List.ne_nil_of_mem hmem)
    have hany : units.any (fun v => (v.2.filter blocksDeletion).length > 0) := by
      exact List.any_eq_true.mpr ⟨ul, hul, by simpa using hlen⟩
    unfold propertyDELETE
    simp [hOwnNeg, hany]

/-- An ACTIVE lease binding `tenant-1` to `unit0`. -/
def activeLease0 : LeaseRec :=
  ⟨"lease-1", "tenant-1", "unit-1", LeaseStatus.ACTIVE⟩

/-- C5 witness: `unit0` carrying `activeLease0` cannot be deleted, nor
can `prop0` while one of its units carries it. -/
theorem c5_delete_blocked_by_active_lease_witness :
    unitDELETE (some sess0) "prop-1" (some prop0)
        (some (unit0, [activeLease0])) =
      ⟨.err 400
        "Cannot delete unit with active leases. Please terminate the lease first.",
        false⟩ ∧
    propertyDELETE (some sess0) (some (prop0, [(unit0, [activeLease0])])) =
      ⟨.err 400
        "Cannot delete property with active leases. Please terminate all leases first.",
        false⟩ := by
  have h := c5_delete_blocked_by_active_lease sess0 "prop-1" prop0 unit0
    [activeLease0] [(unit0, [activeLease0])] rfl rfl
  exact ⟨h.1 ⟨activeLease0, by decide, by decide⟩,
    h.2 ⟨(unit0, [activeLease0]), by decide, activeLease0, by decide, by decide⟩⟩

/-! ### C6 -/

/-- C6: a successful onboarding submission performs, inside one
transaction, exactly the four writes — user-profile update, creation of
a `PENDING_SIGNATURE` lease on the selected unit, flipping the unit to
`RESERVED`, and one audit-log row — and a submission against a
non-`VACANT` unit is rejected with 409 and performs none of them. -/
theorem c6_onboarding_transaction (s : Session)
    (data : CompleteOnboardingInput) (unit : UnitRec) (newLeaseId : String) :
    (unit.status = UnitStatus.VACANT →
      onboardingSubmitPOST (some s) (.ok data) (some unit) newLeaseId =
        ⟨.ok 201 newLeaseId,
          [OnboardingWrite.updateUserProfile s.userId,
           OnboardingWrite.createLease
             ⟨newLeaseId, s.userId, data.unitId, LeaseStatus.PENDING_SIGNATURE⟩,
           OnboardingWrite.setUnitStatus data.unitId UnitStatus.RESERVED,
           OnboardingWrite.createAuditLog s.userId
             "TENANT_ONBOARDING_COMPLETED" newLeaseId]⟩) ∧
    (unit.status ≠ UnitStatus.VACANT →
      onboardingSubmitPOST (some s) (.ok data) (some unit) newLeaseId =
        ⟨.err 409 "This unit is no longer available", []⟩) := by
  constructor
  · intro hv
    unfold onboardingSubmitPOST
    simp [hv]
  · intro hv
    unfold onboardingSubmitPOST
    simp [hv]

/-- A complete onboarding body selecting `unit-2`. -/
def onboardingInput0 : CompleteOnboardingInput :=
  { firstName := "Ada"
    lastName := "Lovelace"
    phone := "555-0100"
    dateOfBirth := 0
    ssnLast4 := "1234"
    emergencyContactName := "Charles Babbage"
    emergencyContactPhone := "555-0101"
    emergencyContactRelation := "friend"
    unitId := "unit-2"
    moveInDate := 100
    leaseTerm := 12
    signature := "Ada Lovelace"
  }

/-- A vacant unit available for onboarding. -/
def vacantUnit0 : UnitRec :=
  ⟨"unit-2", "prop-1", "2B", UnitStatus.VACANT, 1200, 1200⟩

/-- C6 witness: submitting against the vacant `unit-2` produces exactly
the four transactional writes; the same submission against the occupied
`unit0` is a 409 with no writes. -/
theorem c6_onboarding_transaction_witness :
    onboardingSubmitPOST (some ⟨"tenant-2", Role.TENANT⟩)
        (.ok onboardingInput0) (some vacantUnit0) "lease-9" =
      ⟨.ok 201 "lease-9",
        [OnboardingWrite.updateUserProfile "tenant-2",
         OnboardingWrite.createLease
           ⟨"lease-9", "tenant-2", "unit-2", LeaseStatus.PENDING_SIGNATURE⟩,
         OnboardingWrite.setUnitStatus "unit-2" UnitStatus.RESERVED,
         OnboardingWrite.createAuditLog "tenant-2"
           "TENANT_ONBOARDING_COMPLETED" "lease-9"]⟩ ∧
    onboardingSubmitPOST (some ⟨"tenant-2", Role.TENANT⟩)
        (.ok onboardingInput0) (some unit0) "lease-9" =
      ⟨.err 409 "This unit is no longer available", []⟩ :=
  ⟨(c6_onboarding_transaction ⟨"tenant-2", Role.TENANT⟩ onboardingInput0
      vacantUnit0 "lease-9").1 rfl,
    (c6_onboarding_transaction ⟨"tenant-2", Role.TENANT⟩ onboardingInput0
      unit0 "lease-9").2 (by decide)⟩

/-! ### C7 -/

/-- C7: in the tenant maintenance-request creation schema, an omitted
`priority` defaults to `MEDIUM`; a `description` shorter than 10
characters (the remaining fields being valid) makes the handler return
400 with the first schema violation message — which is the
description-field message `Please provide a detailed description` — and
no request is created. -/
theorem c7_create_request_validation (raw : CreateMaintenanceRequestRaw)
    (s : Session) (leases : List LeaseRec) (newId : String)
    (t dsc : String) (c : MaintenanceCategory)
    (hT : raw.title = some t) (hT1 : 1 ≤ t.length) (hT2 : t.length ≤ 200)
    (hD : raw.description = some dsc) (hC : raw.category = some c)
    (hPT : preferredTimesIssues raw.preferredTimes = []) :
    (dsc.length < 10 →
      ∃ issues, createMaintenanceRequestParse raw = .error issues ∧
        issues.head? =
          some ⟨"description", "Please provide a detailed description"⟩ ∧
        tenantMaintenancePOST (some s) raw leases newId =
          ⟨.err 400 "Please provide a detailed description", none⟩) ∧
    (10 ≤ dsc.length → dsc.length ≤ 2000 → raw.priority = none →
      ∃ parsed, createMaintenanceRequestParse raw = .ok parsed ∧
        parsed.priority = MaintenancePriority.MEDIUM) := by
  have hTI : titleIssues (some t) = [] := by
    unfold titleIssues
    have h1 : ¬t.length < 1 := by omega
    have h2 : ¬t.length > 200 := by omega
    simp [h1, h2]
  have hCI : categoryIssues (some c) = [] := rfl
  constructor
  · intro hshort
    have hDI : descriptionIssues (some dsc) =
        [⟨"description", "Please provide a detailed description"⟩] := by
      unfold descriptionIssues
      have h2 : ¬dsc.length > 2000 := by omega
      simp [hshort, h2]
    have hparse : createMaintenanceRequestParse raw =
        .error [⟨"description", "Please provide a detailed description"⟩] := by
      unfold createMaintenanceRequestParse
      rw [hT, hD, hC]
      simp [hTI, hDI, hCI, hPT]
    refine ⟨_, hparse, rfl, ?_⟩
    unfold tenantMaintenancePOST
    rw [hparse]
  · intro hlo hhi hprio
    have hDI : descriptionIssues (some dsc) = [] := by
      unfold descriptionIssues
      have h1 : ¬dsc.length < 10 := by omega
      have h2 : ¬dsc.length > 2000 := by omega
      simp [h1, h2]
    refine ⟨{ title := t, description := dsc, category := c,
              priority := raw.priority.getD MaintenancePriority.MEDIUM,
              entryPermission := raw.entryPermission.getD false,
              preferredTimes := raw.preferredTimes,
              photoUrls := raw.photoUrls.getD [] }, ?_, ?_⟩
    · unfold createMaintenanceRequestParse
      rw [hT, hD, hC]
      simp [hTI, hDI, hCI, hPT]
    · simp [hprio]

/-- A raw creation body with a too-short description. -/
def shortDescRaw0 : CreateMaintenanceRequestRaw :=
  ⟨some "Leaking sink", some "leak", some MaintenanceCategory.PLUMBING,
    none, none, none, none⟩

/-- A raw creation body with a valid description and omitted priority. -/
def validRaw0 : CreateMaintenanceRequestRaw :=
  ⟨some "Leaking sink", some "The kitchen sink is leaking",
    some MaintenanceCategory.PLUMBING, none, none, none, none⟩

/-- The parse of `validRaw0`: priority defaulted to `MEDIUM`. -/
def parsedValid0 : CreateMaintenanceRequestInput :=
  ⟨"Leaking sink", "The kitchen sink is leaking",
    MaintenanceCategory.PLUMBING, MaintenancePriority.MEDIUM, false,
    none, []⟩

/-- C7 witness: `shortDescRaw0` is refused with the description-field
message and creates nothing; `validRaw0` parses to `parsedValid0`,
whose priority is `MEDIUM`. -/
theorem c7_create_request_validation_witness :
    tenantMaintenancePOST (some ⟨"tenant-1", Role.TENANT⟩) shortDescRaw0
        [activeLease0] "mr-9" =
      ⟨.err 400 "Please provide a detailed description", none⟩ ∧
    createMaintenanceRequestParse validRaw0 = .ok parsedValid0 ∧
    parsedValid0.priority = MaintenancePriority.MEDIUM := by
  have h1 := c7_create_request_validation shortDescRaw0
    ⟨"tenant-1", Role.TENANT⟩ [activeLease0] "mr-9"
    "Leaking sink" "leak" MaintenanceCategory.PLUMBING
    rfl (by decide) (by decide) rfl rfl rfl
  have h2 := c7_create_request_validation validRaw0
    ⟨"tenant-1", Role.TENANT⟩ [activeLease0] "mr-9"
    "Leaking sink" "The kitchen sink is leaking" MaintenanceCategory.PLUMBING
    rfl (by decide) (by decide) rfl rfl rfl
  obtain ⟨-, -, -, hpost⟩ := h1.1 (by decide)
  obtain ⟨q, hq, hqp⟩ := h2.2 (by decide) (by decide) rfl
  have hpv : createMaintenanceRequestParse validRaw0 = .ok parsedValid0 := rfl
  rw [hpv] at hq
  cases Except.ok.inj hq
  exact ⟨hpost, hpv, hqp⟩

/-! ### C8 -/

/-- C8: a successful tenant-initiated payment creation writes a Payment
row with status `PENDING`, linked to the tenant's lease and to the
gateway payment-intent id, and returns the gateway's client secret; and
on every path of the handler, any Payment row it creates has status
`PENDING`. -/
theorem c8_payment_created_pending (s : Session) (data : CreatePaymentInput)
    (lease : LeaseRec) (user : UserRec) (intent : PaymentIntent) (now : Nat)
    (hLease : lease.tenantId = s.userId) :
    (∃ p, (tenantPaymentsPOST (some s) (.ok data) (some lease) (some user)
          intent now).createdPayment = some p ∧
        p.status = PaymentStatus.PENDING ∧
        p.leaseId = data.leaseId ∧
        p.userId = s.userId ∧
        p.stripePaymentIntentId = intent.id ∧
        (tenantPaymentsPOST (some s) (.ok data) (some lease) (some user)
            intent now).resp = .ok 201 (p, intent.client_secret)) ∧
    (∀ sess parsed ll ul i n p,
      (tenantPaymentsPOST sess parsed ll ul i n).createdPayment = some p →
        p.status = PaymentStatus.PENDING) := by
  constructor
  · have hTenNeg : ¬lease.tenantId ≠ s.userId := by
      intro h
      exact h hLease
    refine ⟨{ userId := s.userId, leaseId := data.leaseId, type := data.type,
              method := data.method, status := PaymentStatus.PENDING,
              amount := data.amount, totalAmount := data.amount, dueDate := now,
              periodStart := data.periodStart, periodEnd := data.periodEnd,
              notes := data.notes, stripePaymentIntentId := intent.id },
        ?_, rfl, rfl, rfl, rfl, ?_⟩ <;>
      · unfold tenantPaymentsPOST
        simp [hTenNeg]
  · intro sess parsed ll ul i n p hp
    unfold tenantPaymentsPOST at hp
    rcases sess with _ | s'
    · simp at hp
    rcases parsed with msg | data'
    · simp at hp
    rcases ll with _ | lease'
    · simp at hp
    by_cases hTen : lease'.tenantId ≠ s'.userId
    · simp [hTen] at hp
    rcases ul with _ | user'
    · simp [hTen] at hp
    · simp only [hTen, if_false, Option.some.injEq] at hp
      subst hp
      rfl

/-- A lease detail for tenant `tenant-1` used by the payment witness. -/
def payUser0 : UserRec :=
  ⟨"tenant-1", "t1@example.com", "Tina", "Tenant", none⟩

/-- A parsed payment body against `lease-1`. -/
def payInput0 : CreatePaymentInput :=
  ⟨"lease-1", PaymentType.RENT, PaymentMethod.ACH, 150000, none, none, none⟩

/-- The gateway intent returned for the witness payment. -/
def intent0 : PaymentIntent := ⟨"pi_123", "pi_123_secret_abc"⟩

/-- The payment row the witness handler run persists. -/
def pay0 : PaymentRec :=
  ⟨"tenant-1", "lease-1", PaymentType.RENT, PaymentMethod.ACH,
    PaymentStatus.PENDING, 150000, 150000, 7, none, none, none, "pi_123"⟩

/-- C8 witness: `tenant-1` paying rent on `lease-1` persists exactly
`pay0` — a `PENDING` row carrying `pi_123` — and the response carries
the client secret. -/
theorem c8_payment_created_pending_witness :
    (tenantPaymentsPOST (some ⟨"tenant-1", Role.TENANT⟩) (.ok payInput0)
        (some activeLease0) (some payUser0) intent0 7).createdPayment =
      some pay0 ∧
    pay0.status = PaymentStatus.PENDING ∧
    pay0.leaseId = payInput0.leaseId ∧
    pay0.stripePaymentIntentId = intent0.id ∧
    (tenantPaymentsPOST (some ⟨"tenant-1", Role.TENANT⟩) (.ok payInput0)
        (some activeLease0) (some payUser0) intent0 7).resp =
      .ok 201 (pay0, intent0.client_secret) := by
  have h := c8_payment_created_pending ⟨"tenant-1", Role.TENANT⟩ payInput0
    activeLease0 payUser0 intent0 7 rfl
  have hcreated : (tenantPaymentsPOST (some ⟨"tenant-1", Role.TENANT⟩)
      (.ok payInput0) (some activeLease0) (some payUser0) intent0
      7).createdPayment = some pay0 := by
    decide
  refine ⟨hcreated, h.2 _ _ _ _ _ _ pay0 hcreated, rfl, rfl, ?_⟩
  obtain ⟨p, hp, -, -, -, -, hresp⟩ := h.1
  rw [hcreated] at hp
  cases Option.some.inj hp
  exact hresp

/-! ### C9 -/

/-- C9: a tenant maintenance-request creation with no `ACTIVE` lease for
the acting tenant returns a 400 (`No active lease found`) and creates no
MaintenanceRequest; when an `ACTIVE` lease is found, the created request
is attached to that lease's unit with initial status `SUBMITTED`. -/
theorem c9_active_lease_required (s : Session)
    (raw : CreateMaintenanceRequestRaw) (leases : List LeaseRec)
    (newId : String) (data : CreateMaintenanceRequestInput)
    (hParse : createMaintenanceRequestParse raw = .ok data) :
    ((∀ l ∈ leases, ¬(l.tenantId = s.userId ∧ l.status = LeaseStatus.ACTIVE)) →
      tenantMaintenancePOST (some s) raw leases newId =
        ⟨.err 400 "No active lease found", none⟩) ∧
    (∀ l, findActiveLease leases s.userId = some l →
      ∃ r, (tenantMaintenancePOST (some s) raw leases newId).created = some r ∧
        r.unitId = l.unitId ∧ r.status = MaintenanceStatus.SUBMITTED ∧
        r.tenantId = s.userId) := by
  constructor
  · intro hnone
    have hfind : findActiveLease leases s.userId = none := by
      unfold findActiveLease
      rw [List.find?_eq_none]
      intro l hl
      have := hnone l hl
      simp only [Bool.and_eq_true, decide_eq_true_eq]
      intro hc
      exact this hc
    simp only [tenantMaintenancePOST, hParse, hfind]
  · intro l hfind
    simp only [tenantMaintenancePOST, hParse, hfind]
    exact ⟨_, rfl, rfl, rfl, rfl⟩

/-- The request created by the C9 witness run. -/
def createdReq9 : MaintenanceRequest :=
  { id := "mr-9"
    tenantId := "tenant-1"
    unitId := "unit-1"
    title := "Leaking sink"
    description := "The kitchen sink is leaking"
    category := MaintenanceCategory.PLUMBING
    priority := MaintenancePriority.MEDIUM
    status := MaintenanceStatus.SUBMITTED
    entryPermission := false
    preferredTimes := none
    photoUrls := []
    acknowledgedAt := none
    completedAt := none
    assignedToId := none
    scheduledDate := none
    scheduledTimeSlot := none
    estimatedCost := none
    actualCost := none
    vendorName := none
    vendorPhone := none
    resolutionNotes := none }

/-- C9 witness: with an empty lease table the creation is refused; with
`activeLease0` present, exactly `createdReq9` is created — on that
lease's unit, in `SUBMITTED`, for the acting tenant. -/
theorem c9_active_lease_required_witness :
    (tenantMaintenancePOST (some ⟨"tenant-1", Role.TENANT⟩) validRaw0 [] "mr-9" =
        ⟨.err 400 "No active lease found", none⟩) ∧
    (tenantMaintenancePOST (some ⟨"tenant-1", Role.TENANT⟩) validRaw0
        [activeLease0] "mr-9").created = some createdReq9 ∧
    createdReq9.unitId = activeLease0.unitId ∧
    createdReq9.status = MaintenanceStatus.SUBMITTED ∧
    createdReq9.tenantId = "tenant-1" := by
  have hp : createMaintenanceRequestParse validRaw0 =
      .ok ⟨"Leaking sink", "The kitchen sink is leaking",
        MaintenanceCategory.PLUMBING, MaintenancePriority.MEDIUM, false,
        none, []⟩ := by
    rfl
  have h1 := c9_active_lease_required ⟨"tenant-1", Role.TENANT⟩ validRaw0 []
    "mr-9" _ hp
  have h2 := c9_active_lease_required ⟨"tenant-1", Role.TENANT⟩ validRaw0
    [activeLease0] "mr-9" _ hp
  obtain ⟨r, hr, hru, hrs, hrt⟩ := h2.2 activeLease0 (by decide)
  have hc : (tenantMaintenancePOST (some ⟨"tenant-1", Role.TENANT⟩) validRaw0
      [activeLease0] "mr-9").created = some createdReq9 := by
    decide
  rw [hc] at hr
  cases Option.some.inj hr
  exact ⟨h1.1 (by intro l hl; cases hl), hc, hru, hrs, hrt⟩
